import Mathlib

/-!
Verification development for the routai backend (bikepacking route planner).

The Python source is shallowly embedded:

* coordinates are pairs of rationals (`Coordinate`), mirroring the
  latitude/longitude floats;
* an encoded polyline string is represented by the coordinate sequence it
  decodes to (the `polyline` library's `decode`/`encode` pair is a bijection
  for the purposes of this code, so `polyline.decode` is the identity in the
  embedding and `polyline.encode` simply stores the coordinate list);
* the external collaborators (geodesic distance, reverse geocoding, the mock
  elevation function, the Places lodging search, the language model) are
  function-valued parameters, so every theorem quantifies over their
  behaviour;
* fallible Python code (raise / try-except) is embedded with `Except`;
* the in-place mutation performed by `find_accommodation_node` is embedded by
  explicit state passing: a node execution returns both its outcome and the
  (possibly mutated) input state.
-/

namespace Routai

/-- Latitude/longitude pair (pydantic_extra_types Coordinate), with rationals
standing in for the floats. -/
structure Coordinate where
  latitude : ℚ
  longitude : ℚ
deriving DecidableEq, Repr

/-- app/models/models.py `Location`: a named point. -/
structure Location where
  name : String
  coordinates : Coordinate
deriving DecidableEq, Repr

/-- app/models/models.py `Accommodation`. -/
structure Accommodation where
  name : String
  address : String
  map_link : String
  rating : Option ℚ
deriving DecidableEq, Repr

/-- app/models/models.py `Route`.  The `polyline` field stores the decoded
coordinate sequence of the encoded polyline string.  `origin` and
`destination` are `Location`s: the stale annotation `Coordinate` in
models.py is contradicted by every construction and use site
(`calculate_segments`, `fetch_route`, the reviewer node and the segment tools
all build and read `.name`/`.coordinates` on them, as do the repository's
tests). -/
structure Route where
  polyline : List Coordinate
  origin : Location
  destination : Location
  distance : Int
  elevation_gain : Int
deriving DecidableEq, Repr

/-- app/models/models.py `Segment`: one day of the trip. -/
structure Segment where
  day : Nat
  route : Route
  accommodation_options : List Accommodation
deriving DecidableEq, Repr

/-- app/models/state.py `RouteRequirements`. -/
structure RouteRequirements where
  origin : Location
  destination : Location
  intermediates : List Location
  daily_distance_km : Int
  context : Option String
deriving DecidableEq, Repr

/-- One entry of a langchain message's `tool_calls` list; only the `name`
key is ever inspected by the routing code (`tc.get("name")`). -/
structure ToolCall where
  name : String
deriving DecidableEq, Repr

/-- Langchain chat messages as used by the graph: human messages and tool
messages have no `tool_calls` attribute, assistant (`ai`) messages carry a
(possibly empty) `tool_calls` list. -/
inductive Message where
  | human (content : String)
  | ai (content : String) (tool_calls : List ToolCall)
  | tool (content : String)
deriving DecidableEq, Repr

/-- The `.type` string of a langchain message. -/
def msg_type : Message → String
  | .human _ => "human"
  | .ai _ _ => "ai"
  | .tool _ => "tool"

/-- The `.content` of a message. -/
def msg_content : Message → String
  | .human c => c
  | .ai c _ => c
  | .tool c => c

/-- Models `hasattr(msg, "tool_calls")` plus the attribute itself: only
assistant messages have a `tool_calls` list. -/
def ai_tool_calls : Message → Option (List ToolCall)
  | .ai _ tcs => some tcs
  | _ => none

/-- app/models/state.py `AgentState`: the conversation state threaded through
the LangGraph workflow. -/
structure AgentState where
  messages : List Message
  requirements : Option RouteRequirements
  route : Option Route
  segments : Option (List Segment)
  user_confirmed : Bool
  awaiting_user_response : Bool
  critical_optimization_done : Bool
deriving DecidableEq, Repr

/-- The pydantic defaults of `AgentState`: every field absent, both flags
false. -/
def initialState : AgentState :=
  ⟨[], none, none, none, false, false, false⟩

/-- LangGraph's `END` sentinel string. -/
def END_SENTINEL : String := "__end__"

/-- Python truthiness of `state.segments` (an `Optional[list]`): present and
non-empty. -/
def segmentsTruthy (s : AgentState) : Bool :=
  match s.segments with
  | some l => !l.isEmpty
  | none => false

/-- Does `pat` occur at the start of `l`?  (Python `str.startswith` on char
lists; helper for substring containment.) -/
def charsLeading : List Char → List Char → Bool
  | [], _ => true
  | _ :: _, [] => false
  | a :: as, b :: bs => (a == b) && charsLeading as bs

/-- Does `pat` occur contiguously inside `l`?  (Python `pat in s`.) -/
def charsWithin (pat : List Char) : List Char → Bool
  | [] => charsLeading pat []
  | c :: cs => charsLeading pat (c :: cs) || charsWithin pat cs

/-- Python `pat in s` for strings. -/
def strContainsStr (s pat : String) : Bool :=
  charsWithin pat.data s.data

/-- The confirmation-question phrases route_planner sniffs for in the
previous assistant message (routing.py lines 38-46). -/
def feedbackPhrases : List String :=
  ["overview", "proceed", "make adjustments", "would you like to"]

/-- Python `str.lower` on one character (ASCII range, which is all the
sniffed phrases use). -/
def charLower (c : Char) : Char :=
  if 65 ≤ c.toNat ∧ c.toNat ≤ 90 then Char.ofNat (c.toNat + 32) else c

/-- Python `str.lower`. -/
def strLower (s : String) : String := ⟨s.data.map charLower⟩

/-- Models `any(phrase in content_lower for phrase in [...])` over the
lowercased content. -/
def feedbackPhraseMatch (content : String) : Bool :=
  feedbackPhrases.any (fun p => strContainsStr (strLower content) p)

/-- app/agent/graph/routing.py `route_planner`.  Returns `none` exactly when
the Python code would raise `IndexError` (`state.messages[-1]` on an empty
log).  The first block is the feedback-mode heuristic: route and segments
present, not confirmed, at least two messages, last one human, previous one
an assistant message containing a confirmation-question phrase. -/
def route_planner (state : AgentState) : Option String :=
  let fb : Bool :=
    state.route.isSome && segmentsTruthy state && !state.user_confirmed &&
    (match state.messages.getLast?, state.messages.dropLast.getLast? with
     | some last_msg, some second_last =>
       (msg_type last_msg == "human") && (msg_type second_last == "ai") &&
       feedbackPhraseMatch (msg_content second_last)
     | _, _ => false)
  if fb then
    some "optimiser"
  else
    match state.messages.getLast? with
    | none => none
    | some last_message =>
      match ai_tool_calls last_message with
      | none => some END_SENTINEL
      | some [] => some END_SENTINEL
      | some (tool_call :: _) =>
        if tool_call.name == "RouteRequirements" then some "parser"
        else some "planner_tools"

/-- app/agent/graph/routing.py `route_optimiser`.  `none` models the
`IndexError` on an empty message log. -/
def route_optimiser (state : AgentState) : Option String :=
  match state.messages.getLast? with
  | none => none
  | some last_message =>
    match ai_tool_calls last_message with
    | some tool_calls =>
      if !tool_calls.isEmpty then
        let tool_names := tool_calls.map (fun tc => tc.name)
        if tool_names.contains "confirm_route" then some "reviewer"
        else some "optimiser_tools"
      else some "reviewer"
    | none => some "reviewer"

/-- app/agent/graph/routing.py `route_reviewer`: only the `user_confirmed`
flag is inspected. -/
def route_reviewer (state : AgentState) : String :=
  if state.user_confirmed then "writer" else END_SENTINEL

/-- app/agent/graph/workflow.py `determine_entry_point`. -/
def determine_entry_point (state : AgentState) : String :=
  if state.user_confirmed then "writer"
  else if state.awaiting_user_response && state.route.isSome &&
          !state.user_confirmed then "optimiser"
  else if state.route.isSome && state.requirements.isSome then "reviewer"
  else "planner"

/-- Modelled from the spec: `route_after_accommodation` is imported by
workflow.py (lines 8-10) from app.agent.graph.routing and wired as the
conditional edge after `find_accommodation` (lines 121-128), but the function
itself is absent from the source tree.  Per the spec's transition table,
Lodging-Search goes to Review when `critical_optimization_done` is already
true and to Optimization otherwise. -/
def route_after_accommodation (state : AgentState) : String :=
  if state.critical_optimization_done then "reviewer" else "optimiser"

/-- The Entry-Point Resolver exactly as the spec words it: confirmed goes to
Itinerary-Writing; else awaiting a reply with a route goes to Optimization;
else an unexpected resume with both route and requirements goes to Review;
else Planning.  (Refinement reference for the source function.) -/
def entryPointSpec (state : AgentState) : String :=
  if state.user_confirmed then "writer"
  else if state.awaiting_user_response && state.route.isSome then "optimiser"
  else if state.route.isSome && state.requirements.isSome then "reviewer"
  else "planner"

/-- External collaborators of app/utils/utils.py `calculate_segments`:
`dist` is `geodesic(p1, p2).kilometers`, `geocode` is `reverse_geocode`
(network-backed, returns a place-name string), `elevation` is
`get_elevation_gain` on a (decoded) polyline (mock randomness in the
source, hence an arbitrary function here). -/
structure GeoEnv where
  dist : Coordinate → Coordinate → ℚ
  geocode : Coordinate → String
  elevation : List Coordinate → Int

/-- Python `int()` applied to a float: truncation toward zero. -/
def pyInt (q : ℚ) : Int :=
  if 0 ≤ q then q.floor else q.ceil

/-- Default coordinate for out-of-range list reads (never hit on the index
ranges the loop uses). -/
def coordZero : Coordinate := ⟨0, 0⟩

/-- A `Location` built from a reverse-geocoded coordinate, as
`calculate_segments` does for intermediate endpoints. -/
def geocodedLocation (env : GeoEnv) (c : Coordinate) : Location :=
  ⟨env.geocode c, c⟩

/-- The main loop of `calculate_segments` (utils.py lines 310-369) followed
by its trailing final-segment block (lines 371-405), with the iteration
count made explicit: the Python `for i in range(len(coordinates) - 1)` runs
exactly `len - 1` times, so the loop is entered with
`fuel = coordinates.length - 1` and the `fuel = 0` case is the code after
the loop.  Arguments after `fuel`: current index `i`, `segment_start_idx`,
`target_distance`, `segment_distance`, `cumulative_distance`, `day_number`. -/
def segLoop (env : GeoEnv) (coords : List Coordinate) (daily_distance : Int)
    (route_origin route_destination : Location) :
    Nat → Nat → Nat → ℚ → ℚ → ℚ → Nat → List Segment
  | 0, _i, start, _target, segdist, _cum, day =>
    if start < coords.length - 1 then
      let segment_coords := coords.drop start
      let seg_origin := if start == 0 then route_origin
        else geocodedLocation env (coords.getD start coordZero)
      [⟨day, ⟨segment_coords, seg_origin, route_destination,
          pyInt (segdist * 1000), env.elevation segment_coords⟩, []⟩]
    else []
  | fuel+1, i, start, target, segdist, cum, day =>
    let p1 := coords.getD i coordZero
    let p2 := coords.getD (i+1) coordZero
    let edge := env.dist p1 p2
    let cum' := cum + edge
    let segdist' := segdist + edge
    if target ≤ cum' then
      let segment_coords := (coords.drop start).take (i + 2 - start)
      let seg_origin := if start == 0 then route_origin
        else geocodedLocation env (coords.getD start coordZero)
      ⟨day, ⟨segment_coords, seg_origin, geocodedLocation env p2,
          pyInt (segdist' * 1000), env.elevation segment_coords⟩, []⟩ ::
        segLoop env coords daily_distance route_origin route_destination
          fuel (i+1) (i+1) (target + (daily_distance : ℚ) / 1000) 0 cum' (day+1)
    else
      segLoop env coords daily_distance route_origin route_destination
        fuel (i+1) start target segdist' cum' day

/-- One pass of the post-loop fix-up (utils.py lines 408-411) from a given
already-fixed predecessor: each following segment's origin is overwritten
with its predecessor's destination, sequentially.  (Destinations are never
written, so the sequential loop is this simple recursion.) -/
def fixupFrom (prev : Segment) : List Segment → List Segment
  | [] => []
  | s :: rest =>
    let s' := { s with route := { s.route with origin := prev.route.destination } }
    s' :: fixupFrom s' rest

/-- The fix-up loop of `calculate_segments`: `segments[i+1].route.origin =
segments[i].route.destination` for all consecutive pairs (a no-op on lists
of length at most one). -/
def fixup : List Segment → List Segment
  | [] => []
  | s :: rest => s :: fixupFrom s rest

/-- app/utils/utils.py `calculate_segments`.  `route_polyline` is the
decoded coordinate list of the encoded polyline argument; the `Except`
error is the `ValueError` raised for degenerate polylines. -/
def calculate_segments (env : GeoEnv) (route_polyline : List Coordinate)
    (daily_distance : Int) (route_origin route_destination : Location) :
    Except String (List Segment) :=
  if route_polyline.isEmpty || route_polyline.length < 2 then
    .error "Invalid polyline: must contain at least 2 points"
  else
    .ok (fixup (segLoop env route_polyline daily_distance route_origin
      route_destination (route_polyline.length - 1) 0 0
      ((daily_distance : ℚ) / 1000) 0 0 1))

/-- The per-segment effect of the accommodation pass in
`recalculate_segments_with_accommodation` (tools/utils.py lines 144-153):
the lodging-search result on success, the empty list if the search raised. -/
def applyAccommodationSearch
    (acc : Coordinate → Int → Except String (List Accommodation))
    (radius : Int) (segment : Segment) : Segment :=
  match acc segment.route.destination.coordinates radius with
  | .ok options => { segment with accommodation_options := options }
  | .error _ => { segment with accommodation_options := [] }

/-- The `for segment in segments` accommodation loop of
`recalculate_segments_with_accommodation`, with `acc` the behaviour of
`get_accommodation` (a network call). -/
def accomLoop (acc : Coordinate → Int → Except String (List Accommodation))
    (radius : Int) : List Segment → List Segment
  | [] => []
  | segment :: rest =>
    (match acc segment.route.destination.coordinates radius with
     | .ok options => { segment with accommodation_options := options }
     | .error _ => { segment with accommodation_options := [] }) ::
    accomLoop acc radius rest

/-- app/tools/utils.py `recalculate_segments_with_accommodation`: segments
from `calculate_segments` on the route's polyline and endpoints (daily
distance converted km → m), then the accommodation loop; an error from
`calculate_segments` propagates, lodging-search errors do not. -/
def recalculate_segments_with_accommodation (env : GeoEnv)
    (acc : Coordinate → Int → Except String (List Accommodation))
    (route : Route) (daily_distance_km accommodation_radius_km : Int) :
    Except String (List Segment) :=
  match calculate_segments env route.polyline (daily_distance_km * 1000)
      route.origin route.destination with
  | .error e => .error e
  | .ok segments => .ok (accomLoop acc accommodation_radius_km segments)

/-- Adjacency relation of the spec's chain invariant. -/
def chainRel (a b : Segment) : Prop :=
  a.route.destination = b.route.origin

/-- The final point of a polyline's coordinate list. -/
def lastPolylinePoint (coords : List Coordinate) : Coordinate :=
  coords.getD (coords.length - 1) coordZero

/-- The chain property a produced segment list actually satisfies: non-empty,
consecutive endpoints equal, first origin the route origin, and the last
destination either the route destination or (when a day boundary falls
exactly on the final polyline point) the reverse-geocoded final point. -/
def segChainOk (o d geoLast : Location) (segs : List Segment) : Prop :=
  segs ≠ [] ∧
  List.Chain' chainRel segs ∧
  (match segs.head? with
   | some s0 => s0.route.origin = o
   | none => True) ∧
  (match segs.getLast? with
   | some s1 => s1.route.destination = d ∨ s1.route.destination = geoLast
   | none => True)

/-- A partial state update as returned by a node or carried by a tool's
`Command(update={...})`: the fields a patch may mention in this code base.
`messages` patches are concatenated by the `operator.add` reducer, the
other fields are overwrite-or-leave-absent; no node or tool in the source
ever patches `awaiting_user_response` or `critical_optimization_done`. -/
structure Patch where
  messages : List Message
  requirements : Option RouteRequirements
  route : Option Route
  segments : Option (List Segment)
  user_confirmed : Option Bool
deriving DecidableEq, Repr

/-- The patch mentioning nothing. -/
def emptyPatch : Patch := ⟨[], none, none, none, none⟩

/-- Merging a patch into the current state snapshot. -/
def applyPatch (p : Patch) (s : AgentState) : AgentState :=
  { messages := s.messages ++ p.messages
    requirements := match p.requirements with
      | some r => some r
      | none => s.requirements
    route := match p.route with
      | some r => some r
      | none => s.route
    segments := match p.segments with
      | some l => some l
      | none => s.segments
    user_confirmed := match p.user_confirmed with
      | some b => b
      | none => s.user_confirmed
    awaiting_user_response := s.awaiting_user_response
    critical_optimization_done := s.critical_optimization_done }

/-- External behaviour a node execution depends on: `llm` is the Model
Invoker (the module-level LLM clients' `invoke`, system prompts and tool
bindings elided; an error is a transport failure or exhausted retries),
`parseReq` is the pydantic validation of a RouteRequirements tool call's
argument payload, `segmentize` is the segment computation used by the
Segmentation node. -/
structure NodeEnv where
  llm : List Message → Except String Message
  parseReq : ToolCall → Except String RouteRequirements
  segmentize : Route → Int → Except String (List Segment)

/-- app/agent/nodes/planner.py `planner_node`: invoke the tool-bound LLM on
the message history and append the response; an invoke failure propagates
(there is no try block). -/
def planner_node (env : NodeEnv) (s : AgentState) :
    Except String Patch × AgentState :=
  match env.llm s.messages with
  | .ok response => (.ok { emptyPatch with messages := [response] }, s)
  | .error e => (.error e, s)

/-- app/agent/nodes/planner.py `parse_requirements_node`: read the last
message (IndexError on an empty log), require a RouteRequirements tool call
in first position, validate its arguments, and patch requirements plus a
tool success message. -/
def parse_requirements_node (env : NodeEnv) (s : AgentState) :
    Except String Patch × AgentState :=
  match s.messages.getLast? with
  | none => (.error "IndexError: list index out of range", s)
  | some last_message =>
    match ai_tool_calls last_message with
    | none => (.error "Expected RouteRequirements tool call but found none", s)
    | some [] => (.error "Expected RouteRequirements tool call but found none", s)
    | some (tool_call :: _) =>
      if tool_call.name == "RouteRequirements" then
        match env.parseReq tool_call with
        | .ok requirements =>
          (.ok { emptyPatch with
              requirements := some requirements
              messages :=
                [.tool "Route requirements validated and stored successfully."] },
            s)
        | .error e => (.error ("Invalid route requirements: " ++ e), s)
      else (.error ("Expected RouteRequirements, got " ++ tool_call.name), s)

/-- app/agent/nodes/router.py `calculate_route_node`.  Missing requirements
raise the validation error.  Otherwise the node calls
`fetch_route(origin=requirements.origin.coordinates, ...)`; `fetch_route`
builds its request by reading `origin.coordinates.latitude`, and a
`Coordinate` has no `.coordinates` attribute, so every call raises
`AttributeError` before any network request, which the node's except block
wraps in `RuntimeError`. -/
def calculate_route_node (s : AgentState) : Except String Patch × AgentState :=
  match s.requirements with
  | none => (.error "Route calculation requires validated requirements", s)
  | some _ =>
    (.error "Route calculation failed: AttributeError: Coordinate object has no attribute coordinates", s)

/-- Modelled from the spec: the Segmentation node (`calculate_segments_node`
is imported by workflow.py from app.agent.nodes.router and registered as the
`generate_waypoints` node, but is absent from the source tree).  Per the
spec it reads route and requirements — failing fast when either is absent —
computes `segment(route, daily_distance)` and returns a `segments` patch. -/
def calculate_segments_node (env : NodeEnv) (s : AgentState) :
    Except String Patch × AgentState :=
  match s.route, s.requirements with
  | some r, some req =>
    (match env.segmentize r req.daily_distance_km with
     | .ok segs => (.ok { emptyPatch with segments := some segs }, s)
     | .error e => (.error e, s))
  | _, _ => (.error "Segmentation requires a calculated route and validated requirements", s)

/-- `get_accommodation` as invoked by `find_accommodation_node`
(logistics.py line 36): the node passes `sm.route.destination`, a
`Location`, and the function body immediately reads `location.latitude`
(utils.py line 106) — an attribute `Location` does not have — so every such
call raises `AttributeError` before the request body is built and before
any network access. -/
def get_accommodation_of_location (_loc : Location) :
    Except String (List Accommodation) :=
  .error "AttributeError: Location object has no attribute latitude"

/-- The `for sm in segments` loop of `find_accommodation_node`, with the
in-place mutation made explicit: returns the loop outcome together with the
segment list as mutated so far (`sm.accommodation_options +=
accommodation_opts` runs only after that segment's search returned). -/
def accSearchLoop : List Segment → Except String Unit × List Segment
  | [] => (.ok (), [])
  | sm :: rest =>
    match get_accommodation_of_location sm.route.destination with
    | .error e => (.error e, sm :: rest)
    | .ok opts =>
      let sm' := { sm with
        accommodation_options := sm.accommodation_options ++ opts }
      let r := accSearchLoop rest
      (r.1, sm' :: r.2)

/-- app/agent/nodes/logistics.py `find_accommodation_node`, the in-place
mutation of `state.segments` threaded explicitly.  Missing or empty
segments raise the validation error; otherwise each segment's destination
is searched and the options appended in place; on success the node returns
the mutated segments as its patch. -/
def find_accommodation_node (s : AgentState) :
    Except String Patch × AgentState :=
  match s.segments with
  | none => (.error "Accommodaion search requires validated segments", s)
  | some segs =>
    if segs.isEmpty then
      (.error "Accommodaion search requires validated segments", s)
    else
      match accSearchLoop segs with
      | (.ok _, mutated) =>
        (.ok { emptyPatch with segments := some mutated },
          { s with segments := some mutated })
      | (.error e, mutated) =>
        (.error e, { s with segments := some mutated })

/-- app/agent/nodes/optimiser.py `optimiser_node`:
`_build_optimization_request` first fails fast on missing/empty segments
and missing requirements, then the tool-bound LLM is invoked on the history
plus the built request (elided into `env.llm`); the returned update is only
the response message — in particular no flag is patched. -/
def optimiser_node (env : NodeEnv) (s : AgentState) :
    Except String Patch × AgentState :=
  if !segmentsTruthy s then
    (.error "Route optimization requires generated segments", s)
  else
    match s.requirements with
    | none => (.error "Route optimization requires requirements", s)
    | some _ =>
      match env.llm s.messages with
      | .ok response => (.ok { emptyPatch with messages := [response] }, s)
      | .error e => (.error e, s)

/-- app/agent/nodes/reviewer.py `reviewer_node`: fail fast on missing
requirements, route or segments, then invoke the LLM on the serialized
state summary (elided into `env.llm`); the update is only the overview
message.  `awaiting_user_response` is never patched. -/
def reviewer_node (env : NodeEnv) (s : AgentState) :
    Except String Patch × AgentState :=
  match s.requirements with
  | none => (.error "Overview generation requires validated requirements", s)
  | some _ =>
    match s.route with
    | none => (.error "Overview generation requires a calculated route", s)
    | some _ =>
      if !segmentsTruthy s then
        (.error "Overview generation requires generated segments", s)
      else
        match env.llm s.messages with
        | .ok response =>
          (.ok { emptyPatch with messages := [response] }, s)
        | .error e => (.error ("Overview generation failed: " ++ e), s)

/-- app/agent/nodes/writer.py `itinerary_writer_node`: its third statement
reads `state.waypoints`, a field the workflow's AgentState
(app/models/state.py) does not have, so every execution raises
`AttributeError` before anything else happens. -/
def itinerary_writer_node (s : AgentState) :
    Except String Patch × AgentState :=
  (.error "AttributeError: AgentState object has no attribute waypoints", s)

/-- The workflow graph's nodes (workflow.py `add_node` calls), tool-executor
nodes excluded (they are `langgraph.prebuilt.ToolNode` instances whose tool
dispatches appear as `Step.toolExec`). -/
inductive NodeId where
  | planner
  | parser
  | calculate_route
  | generate_waypoints
  | find_accommodation
  | optimiser
  | reviewer
  | writer
deriving DecidableEq, Repr

/-- Dispatch a node execution. -/
def runNode (env : NodeEnv) : NodeId → AgentState →
    Except String Patch × AgentState
  | .planner => planner_node env
  | .parser => parse_requirements_node env
  | .calculate_route => calculate_route_node
  | .generate_waypoints => calculate_segments_node env
  | .find_accommodation => find_accommodation_node
  | .optimiser => optimiser_node env
  | .reviewer => reviewer_node env
  | .writer => itinerary_writer_node

/-- The dispatched tools: the state-updating Commands of app/tools/route.py
and the result-only tools, wrapped into tool messages by the ToolNodes.
Constructor arguments carry the values the tool computed from its external
calls (recalculated segments, routes, updated requirements, serialized
results); each patch's shape is the source's `Command(update={...})`.
`search_accommodation_for_day` and `find_accommodation_at_location` are
imported by app/tools/__init__.py but absent from the source tree: modelled
from the spec they are lodging-search tools (results or segment updates),
not the confirmation tool. -/
inductive ToolAction where
  | confirm_route
  | get_route_summary (result : String)
  | get_segment_details (result : String)
  | get_location (result : String)
  | get_weather (result : String)
  | adjust_daily_distance (segs : List Segment) (reqs : RouteRequirements)
  | add_intermediate_waypoint (r : Route) (segs : List Segment)
      (reqs : RouteRequirements)
  | remove_intermediate_waypoint (r : Route) (segs : List Segment)
      (reqs : RouteRequirements)
  | recalculate_complete_route (r : Route) (segs : List Segment)
      (reqs : RouteRequirements)
  | search_accommodation_for_day (segs : List Segment) (result : String)
  | find_accommodation_at_location (result : String)
deriving DecidableEq, Repr

/-- The state update each tool dispatch produces. -/
def toolPatch : ToolAction → Patch
  | .confirm_route =>
    { emptyPatch with
        user_confirmed := some true
        messages :=
          [.tool "Route confirmed. Proceeding to generate detailed itinerary."] }
  | .get_route_summary result => { emptyPatch with messages := [.tool result] }
  | .get_segment_details result => { emptyPatch with messages := [.tool result] }
  | .get_location result => { emptyPatch with messages := [.tool result] }
  | .get_weather result => { emptyPatch with messages := [.tool result] }
  | .adjust_daily_distance segs reqs =>
    { emptyPatch with
        segments := some segs
        requirements := some reqs
        messages := [.tool "New daily distance set."] }
  | .add_intermediate_waypoint r segs reqs =>
    { emptyPatch with
        route := some r
        segments := some segs
        requirements := some reqs
        messages := [.tool "Waypoint added."] }
  | .remove_intermediate_waypoint r segs reqs =>
    { emptyPatch with
        route := some r
        segments := some segs
        requirements := some reqs
        messages := [.tool "Waypoint removed."] }
  | .recalculate_complete_route r segs reqs =>
    { emptyPatch with
        route := some r
        segments := some segs
        requirements := some reqs
        messages := [.tool "Route recalculated."] }
  | .search_accommodation_for_day segs result =>
    { emptyPatch with
        segments := some segs
        messages := [.tool result] }
  | .find_accommodation_at_location result =>
    { emptyPatch with messages := [.tool result] }

/-- One observable transition of a session's persisted state. -/
inductive Step where
  | nodeExec (env : NodeEnv) (n : NodeId)
  | toolExec (t : ToolAction)
  | userMsg (content : String)

/-- The effect of one step on the persisted state: a successful node applies
its patch to the state as possibly mutated in place by the node body, a
failed node applies no patch, a dispatched tool command applies its update,
and an inbound user message is appended to the log. -/
def stepApply (st : Step) (s : AgentState) : AgentState :=
  match st with
  | .nodeExec env n =>
    match runNode env n s with
    | (.ok p, s') => applyPatch p s'
    | (.error _, s') => s'
  | .toolExec t => applyPatch (toolPatch t) s
  | .userMsg c => { s with messages := s.messages ++ [.human c] }

/-- A session run: fold the steps over a starting state. -/
def runSteps (steps : List Step) (s : AgentState) : AgentState :=
  steps.foldl (fun acc st => stepApply st acc) s

/-- A node environment whose external calls all fail, for concrete witness
runs. -/
def envFail : NodeEnv :=
  ⟨fun _ => .error "llm unavailable", fun _ => .error "validation failed",
   fun _ _ => .error "segmentation failed"⟩

/-- Decidable equality of outcomes, used to evaluate the embedding on
concrete inputs. -/
instance exceptDecEq {ε α : Type} [DecidableEq ε] [DecidableEq α] :
    DecidableEq (Except ε α) := fun x y =>
  match x, y with
  | .ok a, .ok b =>
    if h : a = b then isTrue (by rw [h]) else isFalse (by simp [h])
  | .error e, .error f =>
    if h : e = f then isTrue (by rw [h]) else isFalse (by simp [h])
  | .ok _, .error _ => isFalse (by simp)
  | .error _, .ok _ => isFalse (by simp)

/-- A concrete geography: every edge is 2 km long, every reverse geocode
answers "G", elevation is zero. -/
def envX : GeoEnv := ⟨fun _ _ => 2, fun _ => "G", fun _ => 0⟩

/-- A two-point polyline whose single edge is a whole day: the day boundary
falls exactly on the final point. -/
def coordsX : List Coordinate := [⟨0, 0⟩, ⟨0, 1⟩]

/-- Concrete route origin for the boundary run. -/
def oX : Location := ⟨"O", ⟨0, 0⟩⟩

/-- Concrete route destination for the boundary run; the geocoder answers
"G" for its coordinates, so the names differ. -/
def dX : Location := ⟨"D", ⟨0, 1⟩⟩

/-- The single segment the boundary run produces: its destination is the
reverse-geocoded final point, not `dX`. -/
def segX : Segment := ⟨1, ⟨coordsX, oX, ⟨"G", ⟨0, 1⟩⟩, 2000, 0⟩, []⟩

/-- A concrete geography for witness runs: every edge 1 km, geocoder answers
"Geo", elevation zero. -/
def envW : GeoEnv := ⟨fun _ _ => 1, fun _ => "Geo", fun _ => 0⟩

/-- Three-point polyline, 2 km in total. -/
def coordsW : List Coordinate := [⟨0, 0⟩, ⟨0, 1⟩, ⟨0, 2⟩]

/-- Witness route origin. -/
def oW : Location := ⟨"OriginTown", ⟨0, 0⟩⟩

/-- Witness route destination. -/
def dW : Location := ⟨"DestTown", ⟨0, 2⟩⟩

/-- Witness route over `coordsW`. -/
def routeW : Route := ⟨coordsW, oW, dW, 0, 0⟩

/-- A lodging search that always fails (Places API unreachable). -/
def accErrW : Coordinate → Int → Except String (List Accommodation) :=
  fun _ _ => .error "Places API unavailable"

/-- The single witness segment (daily target far above the total length). -/
def segW : Segment := ⟨1, ⟨coordsW, oW, dW, 2000, 0⟩, []⟩

/-- Concrete validated requirements for witness runs. -/
def reqW : RouteRequirements := ⟨oW, dW, [], 100, none⟩

/-- A node environment whose model always answers with a fixed assistant
message carrying no tool calls. -/
def envNoToolResp : NodeEnv :=
  ⟨fun _ => .ok (.ai "The route looks fine as-is." []),
   fun _ => .error "validation failed",
   fun _ _ => .error "segmentation failed"⟩

/-- A state ready for optimisation (requirements, route and segments all
present), not confirmed, no flag set. -/
def optimReadyState : AgentState :=
  ⟨[.human "plan a trip"], some reqW, some routeW, some [segW],
   false, false, false⟩

/-- A state whose last message is an assistant message requesting a tool,
with the route not yet confirmed. -/
def reviewToolState : AgentState :=
  ⟨[.ai "Let me check the weather." [⟨"get_weather"⟩]],
   none, none, none, false, false, false⟩

/-- A state whose last (only) message is an assistant message carrying two
tool-invocation requests, the submit-requirements call in second
position. -/
def plannerMultiToolState : AgentState :=
  ⟨[.ai "" [⟨"get_location"⟩, ⟨"RouteRequirements"⟩]],
   none, none, none, false, false, false⟩

/-- A post-review state: the penultimate assistant message contains the
word "overview", the last message is the user's feedback. -/
def fbOverviewState : AgentState :=
  ⟨[.ai "Here is an overview of your route. Would you like to proceed?" [],
    .human "Make day 2 shorter."],
   some reqW, some routeW, some [segW], false, false, false⟩

/-- The same state except that the penultimate assistant message contains
none of the sniffed phrases. -/
def fbPlainState : AgentState :=
  ⟨[.ai "Hello." [], .human "Make day 2 shorter."],
   some reqW, some routeW, some [segW], false, false, false⟩

/-- `fbPlainState` with one extra early message, agreeing with it on the
last two messages, the flags, the route and the segments. -/
def fbPlainStateLong : AgentState :=
  ⟨[.tool "extra early entry", .ai "Hello." [], .human "Make day 2 shorter."],
   some reqW, some routeW, some [segW], false, false, false⟩

theorem fixupFrom_map_dest (l : List Segment) : ∀ prev : Segment,
    (fixupFrom prev l).map (fun s => s.route.destination) =
      l.map (fun s => s.route.destination) := by
  induction l with
  | nil => intro prev; rfl
  | cons s rest ih =>
    intro prev
    simp only [fixupFrom, List.map_cons, ih]

theorem fixup_map_dest (l : List Segment) :
    (fixup l).map (fun s => s.route.destination) =
      l.map (fun s => s.route.destination) := by
  cases l with
  | nil => rfl
  | cons s rest => simp only [fixup, List.map_cons, fixupFrom_map_dest]

theorem fixup_head (l : List Segment) : (fixup l).head? = l.head? := by
  cases l <;> rfl

theorem fixup_eq_nil_iff (l : List Segment) : fixup l = [] ↔ l = [] := by
  cases l <;> simp [fixup]

theorem chain_fixupFrom (l : List Segment) : ∀ prev : Segment,
    List.Chain' chainRel (prev :: fixupFrom prev l) := by
  induction l with
  | nil => intro prev; simp [fixupFrom]
  | cons s rest ih =>
    intro prev
    rw [fixupFrom]
    exact List.chain'_cons.mpr ⟨rfl, ih _⟩

theorem chain_fixup (l : List Segment) : List.Chain' chainRel (fixup l) := by
  cases l with
  | nil => simp [fixup]
  | cons s rest =>
    rw [fixup]
    exact chain_fixupFrom rest s

theorem fixup_getLast_dest (l : List Segment) :
    (fixup l).getLast?.map (fun s => s.route.destination) =
      l.getLast?.map (fun s => s.route.destination) := by
  rw [← List.getLast?_map, ← List.getLast?_map, fixup_map_dest]

theorem segLoop_eq_nil_le (env : GeoEnv) (coords : List Coordinate)
    (daily : Int) (o d : Location) :
    ∀ fuel i start target segdist cum day,
      segLoop env coords daily o d fuel i start target segdist cum day = [] →
      coords.length - 1 ≤ start := by
  intro fuel
  induction fuel with
  | zero =>
    intro i start target segdist cum day h
    simp only [segLoop] at h
    split at h
    · simp at h
    · omega
  | succ fuel ih =>
    intro i start target segdist cum day h
    simp only [segLoop] at h
    split at h
    · simp at h
    · exact ih _ _ _ _ _ _ h

theorem segLoop_head_origin (env : GeoEnv) (coords : List Coordinate)
    (daily : Int) (o d : Location) :
    ∀ fuel i target segdist cum day s,
      (segLoop env coords daily o d fuel i 0 target segdist cum day).head? =
        some s →
      s.route.origin = o := by
  intro fuel
  induction fuel with
  | zero =>
    intro i target segdist cum day s h
    simp only [segLoop] at h
    split at h
    · simp only [List.head?_cons, Option.some.injEq] at h
      subst h
      rfl
    · simp at h
  | succ fuel ih =>
    intro i target segdist cum day s h
    simp only [segLoop] at h
    split at h
    · simp only [List.head?_cons, Option.some.injEq] at h
      subst h
      rfl
    · exact ih _ _ _ _ _ _ h

theorem segLoop_getLast_dest (env : GeoEnv) (coords : List Coordinate)
    (daily : Int) (o d : Location) :
    ∀ fuel i start target segdist cum day s,
      fuel + i = coords.length - 1 →
      (segLoop env coords daily o d fuel i start target segdist cum day).getLast? =
        some s →
      s.route.destination = d ∨
        s.route.destination = geocodedLocation env (lastPolylinePoint coords) := by
  intro fuel
  induction fuel with
  | zero =>
    intro i start target segdist cum day s hfi h
    simp only [segLoop] at h
    split at h
    · simp only [List.getLast?_singleton, Option.some.injEq] at h
      subst h
      left
      rfl
    · simp at h
  | succ fuel ih =>
    intro i start target segdist cum day s hfi h
    simp only [segLoop] at h
    split at h
    · rcases hrest : segLoop env coords daily o d fuel (i+1) (i+1)
          (target + (daily : ℚ) / 1000) 0
          (cum + env.dist (coords.getD i coordZero) (coords.getD (i+1) coordZero))
          (day+1) with _ | ⟨a, rest⟩
      · rw [hrest] at h
        simp only [List.getLast?_singleton, Option.some.injEq] at h
        subst h
        right
        have h1 : coords.length - 1 ≤ i + 1 :=
          segLoop_eq_nil_le env coords daily o d _ _ _ _ _ _ _ hrest
        have h2 : i + 1 = coords.length - 1 := by omega
        simp only [lastPolylinePoint, ← h2]
      · rw [hrest, List.getLast?_cons_cons, ← hrest] at h
        exact ih _ _ _ _ _ _ _ (by omega) h
    · exact ih _ _ _ _ _ _ _ (by omega) h

theorem calculate_segments_chainOk (env : GeoEnv) (coords : List Coordinate)
    (daily : Int) (o d : Location) (segs : List Segment)
    (h : calculate_segments env coords daily o d = .ok segs) :
    segChainOk o d (geocodedLocation env (lastPolylinePoint coords)) segs := by
  unfold calculate_segments at h
  split at h
  · exact absurd h (by simp)
  · rename_i hguard
    have hlen : 2 ≤ coords.length := by
      rcases coords with _ | ⟨c, _ | ⟨c', cs⟩⟩ <;> simp_all
    simp only [Except.ok.injEq] at h
    subst h
    set raw := segLoop env coords daily o d (coords.length - 1) 0 0
      ((daily : ℚ) / 1000) 0 0 1 with hraw
    have hraw_ne : raw ≠ [] := by
      intro hnil
      have := segLoop_eq_nil_le env coords daily o d _ _ _ _ _ _ _ hnil
      omega
    refine ⟨?_, chain_fixup raw, ?_, ?_⟩
    · rw [Ne, fixup_eq_nil_iff]
      exact hraw_ne
    · rcases hh : (fixup raw).head? with _ | s0
      · trivial
      · rw [fixup_head raw] at hh
        exact segLoop_head_origin env coords daily o d _ _ _ _ _ _ _ hh
    · rcases hh : (fixup raw).getLast? with _ | s1
      · trivial
      · rcases hr : raw.getLast? with _ | t
        · rw [List.getLast?_eq_none_iff] at hr
          exact absurd hr hraw_ne
        · have hmap := fixup_getLast_dest raw
          rw [hh, hr] at hmap
          simp only [Option.map_some', Option.some.injEq] at hmap
          dsimp only
          rw [hmap]
          exact segLoop_getLast_dest env coords daily o d _ _ _ _ _ _ _ t
            (by omega) hr

theorem applyAccommodationSearch_route
    (acc : Coordinate → Int → Except String (List Accommodation))
    (radius : Int) (s : Segment) :
    (applyAccommodationSearch acc radius s).route = s.route := by
  unfold applyAccommodationSearch
  split <;> rfl

theorem accomLoop_eq_map
    (acc : Coordinate → Int → Except String (List Accommodation))
    (radius : Int) : ∀ l : List Segment,
    accomLoop acc radius l = l.map (applyAccommodationSearch acc radius) := by
  intro l
  induction l with
  | nil => rfl
  | cons s rest ih =>
    simp only [accomLoop, applyAccommodationSearch, List.map_cons, ih]

theorem segChainOk_accomLoop (o d g : Location)
    (acc : Coordinate → Int → Except String (List Accommodation))
    (radius : Int) (l : List Segment)
    (h : segChainOk o d g l) :
    segChainOk o d g (accomLoop acc radius l) := by
  rw [accomLoop_eq_map]
  obtain ⟨h1, h2, h3, h4⟩ := h
  refine ⟨by simpa using h1, ?_, ?_, ?_⟩
  · rw [List.chain'_map]
    exact h2.imp (fun a b hab => by
      simpa [chainRel, applyAccommodationSearch_route] using hab)
  · rcases hl : l.head? with _ | s0
    · simp [List.head?_map, hl]
    · rw [hl] at h3
      simp [List.head?_map, hl, applyAccommodationSearch_route]
      exact h3
  · rcases hl : l.getLast? with _ | s1
    · simp [List.getLast?_map, hl]
    · rw [hl] at h4
      simp [List.getLast?_map, hl, applyAccommodationSearch_route]
      exact h4

/-- C1 (amended): every segment list produced by `calculate_segments` or by
`recalculate_segments_with_accommodation` is non-empty, its consecutive
segment endpoints coincide, and its first sub-route origin is the route
origin; its last sub-route destination is the route destination, except
that when a day boundary falls exactly on the final polyline point it is
the reverse-geocoded final polyline point instead. -/
theorem claim_C1_segment_chain :
    (∀ (env : GeoEnv) (coords : List Coordinate) (daily : Int)
       (o d : Location) (segs : List Segment),
       calculate_segments env coords daily o d = .ok segs →
       segChainOk o d (geocodedLocation env (lastPolylinePoint coords)) segs) ∧
    (∀ (env : GeoEnv)
       (acc : Coordinate → Int → Except String (List Accommodation))
       (route : Route) (dkm radius : Int) (segs : List Segment),
       recalculate_segments_with_accommodation env acc route dkm radius =
         .ok segs →
       segChainOk route.origin route.destination
         (geocodedLocation env (lastPolylinePoint route.polyline)) segs) := by
  constructor
  · exact calculate_segments_chainOk
  · intro env acc route dkm radius segs h
    unfold recalculate_segments_with_accommodation at h
    split at h
    · exact absurd h (by simp)
    · rename_i segs0 hcalc
      simp only [Except.ok.injEq] at h
      subst h
      exact segChainOk_accomLoop _ _ _ acc radius segs0
        (calculate_segments_chainOk env route.polyline (dkm * 1000)
          route.origin route.destination segs0 hcalc)

/-- C5: the Entry-Point Resolver follows exactly the spec's ordered rules
(confirmed, awaiting-with-route, unexpected-resume, planning), and being a
pure function it returns the same target on repeated calls over the same
state. -/
theorem claim_C5_entry_point :
    ∀ s : AgentState,
      determine_entry_point s = entryPointSpec s ∧
      determine_entry_point s = determine_entry_point s := by
  intro s
  refine ⟨?_, rfl⟩
  unfold determine_entry_point entryPointSpec
  cases h : s.user_confirmed <;> simp [h]

/-- C2: after Lodging-Search, routing goes to Review if
`critical_optimization_done` is already true, to Optimization otherwise; in
particular once the flag is true the router never re-enters Optimization. -/
theorem claim_C2_after_accommodation :
    ∀ s : AgentState,
      (s.critical_optimization_done = true →
        route_after_accommodation s = "reviewer" ∧
        route_after_accommodation s ≠ "optimiser") ∧
      (s.critical_optimization_done = false →
        route_after_accommodation s = "optimiser") := by
  intro s
  unfold route_after_accommodation
  constructor
  · intro h
    simp [h]
  · intro h
    simp [h]

/-- C2 witness: the router evaluated on concrete states on both sides of the
flag. -/
theorem claim_C2_witness :
    route_after_accommodation
        ⟨[], none, none, none, false, false, true⟩ = "reviewer" ∧
    route_after_accommodation initialState = "optimiser" :=
  ⟨(claim_C2_after_accommodation
      ⟨[], none, none, none, false, false, true⟩).1 rfl |>.1,
   (claim_C2_after_accommodation initialState).2 rfl⟩

theorem accSearchLoop_cons (sm : Segment) (rest : List Segment) :
    accSearchLoop (sm :: rest) =
      (.error "AttributeError: Location object has no attribute latitude",
        sm :: rest) := rfl

theorem runNode_state_eq (env : NodeEnv) (n : NodeId) (s : AgentState) :
    (runNode env n s).2 = s := by
  cases n with
  | planner =>
    simp only [runNode, planner_node]
    cases env.llm s.messages <;> rfl
  | parser =>
    simp only [runNode, parse_requirements_node]
    rcases s.messages.getLast? with _ | (c | ⟨c, _ | ⟨tc, rest⟩⟩ | c)
    · rfl
    · rfl
    · rfl
    · cases h : (tc.name == "RouteRequirements") with
      | false => simp [ai_tool_calls, h]
      | true =>
        simp only [ai_tool_calls, h, if_true]
        cases env.parseReq tc <;> rfl
    · rfl
  | calculate_route =>
    simp only [runNode, calculate_route_node]
    cases s.requirements <;> rfl
  | generate_waypoints =>
    simp only [runNode, calculate_segments_node]
    split
    · split <;> rfl
    · rfl
  | find_accommodation =>
    simp only [runNode, find_accommodation_node]
    rcases hseg : s.segments with _ | (_ | ⟨sm, rest⟩)
    · rfl
    · rfl
    · show ({ s with segments := some (sm :: rest) } : AgentState) = s
      rw [← hseg]
  | optimiser =>
    simp only [runNode, optimiser_node]
    cases h : segmentsTruthy s with
    | false => simp [h]
    | true =>
      simp only [h, Bool.not_true, Bool.false_eq_true, if_false]
      rcases s.requirements with _ | req
      · rfl
      · cases env.llm s.messages <;> rfl
  | reviewer =>
    simp only [runNode, reviewer_node]
    rcases s.requirements with _ | req
    · rfl
    · rcases s.route with _ | r
      · rfl
      · cases h : segmentsTruthy s with
        | false => simp [h]
        | true =>
          simp only [h, Bool.not_true, Bool.false_eq_true, if_false]
          cases env.llm s.messages <;> rfl
  | writer => rfl

theorem runNode_patch_no_confirm (env : NodeEnv) (n : NodeId)
    (s : AgentState) (p : Patch) (s' : AgentState)
    (h : runNode env n s = (.ok p, s')) : p.user_confirmed = none := by
  cases n <;>
    simp only [runNode, planner_node, parse_requirements_node,
      calculate_route_node, calculate_segments_node, find_accommodation_node,
      optimiser_node, reviewer_node, itinerary_writer_node] at h <;>
    (repeat' split at h) <;>
    first
    | (simp only [Prod.mk.injEq, Except.ok.injEq] at h
       rw [← h.1]
       rfl)
    | simp_all

theorem applyPatch_confirmed (p : Patch) (s : AgentState)
    (hp : p.user_confirmed = none) :
    (applyPatch p s).user_confirmed = s.user_confirmed := by
  simp [applyPatch, hp]

theorem applyPatch_awaiting (p : Patch) (s : AgentState) :
    (applyPatch p s).awaiting_user_response = s.awaiting_user_response := rfl

theorem applyPatch_critical (p : Patch) (s : AgentState) :
    (applyPatch p s).critical_optimization_done =
      s.critical_optimization_done := rfl

theorem toolPatch_no_confirm (t : ToolAction)
    (ht : t ≠ ToolAction.confirm_route) :
    (toolPatch t).user_confirmed = none := by
  cases t <;> first | rfl | exact absurd rfl ht

theorem stepApply_confirmed (st : Step) (s : AgentState)
    (h : ∀ t, st = Step.toolExec t → t ≠ ToolAction.confirm_route) :
    (stepApply st s).user_confirmed = s.user_confirmed := by
  cases st with
  | nodeExec env n =>
    simp only [stepApply]
    rcases hr : runNode env n s with ⟨res, s'⟩
    have hs' : s' = s := by
      have h2 := runNode_state_eq env n s
      rw [hr] at h2
      exact h2
    cases res with
    | ok p =>
      have hp := runNode_patch_no_confirm env n s p s' hr
      subst hs'
      exact applyPatch_confirmed p _ hp
    | error e => simp only [hs']
  | toolExec t =>
    exact applyPatch_confirmed _ _ (toolPatch_no_confirm t (h t rfl))
  | userMsg c => rfl

theorem stepApply_awaiting (st : Step) (s : AgentState) :
    (stepApply st s).awaiting_user_response = s.awaiting_user_response := by
  cases st with
  | nodeExec env n =>
    simp only [stepApply]
    rcases hr : runNode env n s with ⟨res, s'⟩
    have hs' : s' = s := by
      have h2 := runNode_state_eq env n s
      rw [hr] at h2
      exact h2
    cases res with
    | ok p => simp only [applyPatch_awaiting, hs']
    | error e => simp only [hs']
  | toolExec t => rfl
  | userMsg c => rfl

theorem stepApply_critical (st : Step) (s : AgentState) :
    (stepApply st s).critical_optimization_done =
      s.critical_optimization_done := by
  cases st with
  | nodeExec env n =>
    simp only [stepApply]
    rcases hr : runNode env n s with ⟨res, s'⟩
    have hs' : s' = s := by
      have h2 := runNode_state_eq env n s
      rw [hr] at h2
      exact h2
    cases res with
    | ok p => simp only [applyPatch_critical, hs']
    | error e => simp only [hs']
  | toolExec t => rfl
  | userMsg c => rfl

/-- C3: if executing a node raises an error, the Conversation State after
the failure is identical (deep, i.e. structural, equality) to the state
immediately before the node began — no partially-applied patch.  This holds
in particular for the Lodging-Search node: its lodging search raises on the
very first segment, before the first in-place mutation. -/
theorem claim_C3_failure_rollback :
    ∀ (env : NodeEnv) (n : NodeId) (s : AgentState) (e : String),
      (runNode env n s).1 = .error e → (runNode env n s).2 = s :=
  fun env n s _ _ => runNode_state_eq env n s

/-- C3 witness: the Lodging-Search node executed on the empty initial state
fails and leaves the state unchanged. -/
theorem claim_C3_witness :
    (runNode envFail NodeId.find_accommodation initialState).1 =
      .error "Accommodaion search requires validated segments" ∧
    (runNode envFail NodeId.find_accommodation initialState).2 =
      initialState :=
  ⟨rfl, claim_C3_failure_rollback envFail NodeId.find_accommodation
    initialState "Accommodaion search requires validated segments" rfl⟩

/-- C9: `user_confirmed` starts false, and over any run of node executions,
tool dispatches and inbound user messages it can only have become true if a
confirm_route tool invocation occurred in the run: no node, routing
function or other tool ever sets it. -/
theorem claim_C9_confirm_only :
    initialState.user_confirmed = false ∧
    ∀ (steps : List Step) (s0 : AgentState),
      s0.user_confirmed = false →
      (runSteps steps s0).user_confirmed = true →
      Step.toolExec ToolAction.confirm_route ∈ steps := by
  refine ⟨rfl, ?_⟩
  intro steps
  induction steps with
  | nil =>
    intro s0 h0 hrun
    rw [runSteps, List.foldl_nil] at hrun
    rw [h0] at hrun
    exact absurd hrun (by simp)
  | cons st rest ih =>
    intro s0 h0 hrun
    rw [runSteps, List.foldl_cons] at hrun
    rcases st with ⟨env, n⟩ | t | c
    · have hpres := stepApply_confirmed (.nodeExec env n) s0 (by intro t ht; cases ht)
      exact List.mem_cons_of_mem _ (ih _ (by rw [hpres, h0]) hrun)
    · by_cases hconf : t = ToolAction.confirm_route
      · subst hconf
        exact List.mem_cons_self _ _
      · have hpres := stepApply_confirmed (.toolExec t) s0
          (by intro t' ht'; cases ht'; exact hconf)
        exact List.mem_cons_of_mem _ (ih _ (by rw [hpres, h0]) hrun)
    · have hpres := stepApply_confirmed (.userMsg c) s0 (by intro t ht; cases ht)
      exact List.mem_cons_of_mem _ (ih _ (by rw [hpres, h0]) hrun)

/-- C9 witness: a run consisting of exactly one confirm_route dispatch from
the initial state ends confirmed, and the theorem locates the invocation. -/
theorem claim_C9_witness :
    Step.toolExec ToolAction.confirm_route ∈
      [Step.toolExec ToolAction.confirm_route] :=
  claim_C9_confirm_only.2 [Step.toolExec ToolAction.confirm_route]
    initialState rfl rfl

/-- C1 counterexample: on a polyline whose single edge completes the day
exactly at the final point, the produced last segment's destination is the
reverse-geocoded final point ⟨"G", (0,1)⟩, not the route destination `dX` —
so the claimed invariant `segments[last].sub_route.destination =
route.destination` fails as stated. -/
theorem claim_C1_counterexample :
    calculate_segments envX coordsX 1000 oX dX = .ok [segX] ∧
    segX.route.destination ≠ dX := by
  constructor
  · norm_num [calculate_segments, segLoop, fixup, fixupFrom, envX, coordsX,
      oX, dX, segX, geocodedLocation, pyInt, coordZero, Rat.floor_def']
  · decide

/-- C1 witness: both producers evaluated on a concrete route, with the chain
property checked on their outputs. -/
theorem claim_C1_witness :
    segChainOk oW dW (geocodedLocation envW (lastPolylinePoint coordsW))
      [segW] ∧
    segChainOk routeW.origin routeW.destination
      (geocodedLocation envW (lastPolylinePoint routeW.polyline)) [segW] :=
  ⟨claim_C1_segment_chain.1 envW coordsW 100000 oW dW [segW]
      (by norm_num [calculate_segments, segLoop, fixup, fixupFrom, envW,
        coordsW, oW, dW, segW, geocodedLocation, pyInt, coordZero,
        Rat.floor_def']),
   claim_C1_segment_chain.2 envW accErrW routeW 100 5 [segW]
      (by norm_num [recalculate_segments_with_accommodation,
        calculate_segments, segLoop, fixup, fixupFrom, envW, coordsW, oW, dW,
        routeW, accErrW, segW, geocodedLocation, pyInt, coordZero, accomLoop,
        Rat.floor_def'])⟩

/-- C10: for every route, positive daily distance and radius,
`recalculate_segments_with_accommodation` returns exactly the
`calculate_segments` list for the route's polyline and endpoints, with each
segment's accommodation options set to the lodging-search result for that
segment's destination, or to the empty list when that search raised; a
lodging-search failure is never propagated to the caller. -/
theorem claim_C10_recalculate :
    ∀ (env : GeoEnv)
      (acc : Coordinate → Int → Except String (List Accommodation))
      (route : Route) (dkm radius : Int),
      0 < dkm →
      recalculate_segments_with_accommodation env acc route dkm radius =
        match calculate_segments env route.polyline (dkm * 1000)
            route.origin route.destination with
        | .ok segs => .ok (segs.map (applyAccommodationSearch acc radius))
        | .error e => .error e := by
  intro env acc route dkm radius _
  unfold recalculate_segments_with_accommodation
  cases calculate_segments env route.polyline (dkm * 1000)
      route.origin route.destination with
  | ok segs => simp [accomLoop_eq_map]
  | error e => rfl

/-- C10 witness: the recalculation evaluated on a concrete route with an
always-failing lodging search. -/
theorem claim_C10_witness :
    (0 : Int) < 100 ∧
    recalculate_segments_with_accommodation envW accErrW routeW 100 5 =
      match calculate_segments envW routeW.polyline (100 * 1000)
          routeW.origin routeW.destination with
      | .ok segs => .ok (segs.map (applyAccommodationSearch accErrW 5))
      | .error e => .error e :=
  ⟨by norm_num, claim_C10_recalculate envW accErrW routeW 100 5 (by norm_num)⟩

/-- C4 counterexample: on a state whose last message is an assistant
message carrying a tool-invocation request while the route is not
confirmed, the claim routes to Review-Tool-Exec, but `route_reviewer`
suspends the turn (it never inspects the last message, and nothing sets
`awaiting_user_response`). -/
theorem claim_C4_counterexample :
    reviewToolState.messages.getLast? =
      some (.ai "Let me check the weather." [⟨"get_weather"⟩]) ∧
    reviewToolState.user_confirmed = false ∧
    route_reviewer reviewToolState = END_SENTINEL ∧
    END_SENTINEL ≠ "reviewer_tools" :=
  ⟨rfl, rfl, rfl, by decide⟩

/-- C4 (amended): after the Review node the routing decision is exactly:
user_confirmed true → Itinerary-Writing, otherwise suspend.  The predicate
never dispatches to Review-Tool-Exec — it does not inspect the last message
at all — and the Review node's execution leaves `awaiting_user_response`
unchanged rather than setting it. -/
theorem claim_C4_reviewer_routing :
    ∀ s : AgentState,
      (route_reviewer s = "writer" ↔ s.user_confirmed = true) ∧
      (route_reviewer s = END_SENTINEL ↔ s.user_confirmed = false) ∧
      (∀ msgs, route_reviewer { s with messages := msgs } = route_reviewer s) ∧
      (∀ env : NodeEnv,
        (stepApply (.nodeExec env .reviewer) s).awaiting_user_response =
          s.awaiting_user_response) := by
  intro s
  refine ⟨?_, ?_, fun msgs => rfl, fun env => stepApply_awaiting _ s⟩
  · cases h : s.user_confirmed <;> simp [route_reviewer, h, END_SENTINEL]
  · cases h : s.user_confirmed <;> simp [route_reviewer, h, END_SENTINEL]

/-- C4 witness: the amended routing evaluated on both sides of the flag. -/
theorem claim_C4_witness :
    (route_reviewer initialState = "writer" ↔
      initialState.user_confirmed = true) ∧
    (route_reviewer initialState = END_SENTINEL ↔
      initialState.user_confirmed = false) :=
  ⟨(claim_C4_reviewer_routing initialState).1,
   (claim_C4_reviewer_routing initialState).2.1⟩

/-- C6 counterexample: the Optimization node's response carries no tool
request; routing proceeds to Review, but `critical_optimization_done`
remains false — the claimed flag assignment does not happen. -/
theorem claim_C6_counterexample :
    (stepApply (.nodeExec envNoToolResp .optimiser)
        optimReadyState).messages.getLast? =
      some (.ai "The route looks fine as-is." []) ∧
    route_optimiser
        (stepApply (.nodeExec envNoToolResp .optimiser) optimReadyState) =
      some "reviewer" ∧
    (stepApply (.nodeExec envNoToolResp .optimiser)
        optimReadyState).critical_optimization_done = false :=
  ⟨rfl, rfl, rfl⟩

/-- C6 (amended): after the Optimization node, a response requesting
confirm_route routes to Review, one requesting only other tools routes to
Optimization-Tool-Exec, and one requesting no tool routes to Review — but
`critical_optimization_done` is not set: no step of the system (node
execution, tool dispatch or user message) ever modifies it. -/
theorem claim_C6_optimiser_routing :
    (∀ (s : AgentState) (c : String) (tcs : List ToolCall),
      s.messages.getLast? = some (.ai c tcs) →
      route_optimiser s =
        (if tcs.isEmpty then some "reviewer"
         else if (tcs.map (fun tc => tc.name)).contains "confirm_route" then
           some "reviewer"
         else some "optimiser_tools")) ∧
    (∀ (st : Step) (s : AgentState),
      (stepApply st s).critical_optimization_done =
        s.critical_optimization_done) := by
  constructor
  · intro s c tcs h
    unfold route_optimiser
    rw [h]
    cases he : tcs.isEmpty <;> simp [ai_tool_calls, he]
  · exact stepApply_critical

/-- C6 witness: the routing characterization evaluated on a no-tool
response and on a confirm_route response, plus flag preservation on a
concrete step. -/
theorem claim_C6_witness :
    route_optimiser
        ⟨[.ai "Done." []], none, none, none, false, false, false⟩ =
      (if ([] : List ToolCall).isEmpty then some "reviewer"
       else if (([] : List ToolCall).map (fun tc => tc.name)).contains
           "confirm_route" then some "reviewer"
       else some "optimiser_tools") ∧
    (stepApply (.userMsg "hi") initialState).critical_optimization_done =
      initialState.critical_optimization_done :=
  ⟨claim_C6_optimiser_routing.1
      ⟨[.ai "Done." []], none, none, none, false, false, false⟩ "Done." []
      rfl,
   claim_C6_optimiser_routing.2 (.userMsg "hi") initialState⟩

/-- C7 counterexample: the assistant message carries two tool requests and
the submit-requirements tool is among them, yet `route_planner` inspects
only the first one and dispatches to Planning-Tool-Exec instead of
Requirements-Validation. -/
theorem claim_C7_counterexample :
    (([⟨"get_location"⟩, ⟨"RouteRequirements"⟩] : List ToolCall).map
        (fun tc => tc.name)).contains "RouteRequirements" = true ∧
    plannerMultiToolState.messages.getLast? =
      some (.ai "" [⟨"get_location"⟩, ⟨"RouteRequirements"⟩]) ∧
    route_planner plannerMultiToolState = some "planner_tools" ∧
    some "planner_tools" ≠ some "parser" :=
  ⟨rfl, rfl, rfl, by decide⟩

/-- C7 (amended): after the Planning node (the last message being the
assistant's response), no tool request suspends the turn; otherwise only
the FIRST tool call is inspected: routing goes to Requirements-Validation
exactly when the first requested tool is the submit-requirements tool, and
to Planning-Tool-Exec otherwise, even when a later request in the same
message is the submit-requirements tool. -/
theorem claim_C7_planner_routing :
    ∀ (s : AgentState) (c : String) (tcs : List ToolCall),
      s.messages.getLast? = some (.ai c tcs) →
      route_planner s =
        (match tcs with
         | [] => some END_SENTINEL
         | tc :: _ =>
           if tc.name == "RouteRequirements" then some "parser"
           else some "planner_tools") := by
  intro s c tcs h
  unfold route_planner
  rw [h]
  rcases hd : s.messages.dropLast.getLast? with _ | m2 <;>
    rcases tcs with _ | ⟨tc, rest⟩ <;>
    simp [msg_type, ai_tool_calls]

/-- C7 witness: the characterization evaluated on a no-tool response. -/
theorem claim_C7_witness :
    route_planner
        ⟨[.ai "What is your destination?" []], none, none, none,
          false, false, false⟩ = some END_SENTINEL :=
  claim_C7_planner_routing
    ⟨[.ai "What is your destination?" []], none, none, none,
      false, false, false⟩ "What is your destination?" [] rfl

/-- C8 counterexample: two states that agree on the last message and on
every boolean flag (and on route and segments) but differ in the content of
an earlier assistant message route differently through `route_planner`: the
phrase heuristic sends one to the optimiser and suspends the other. -/
theorem claim_C8_counterexample :
    fbOverviewState.messages.getLast? = fbPlainState.messages.getLast? ∧
    fbOverviewState.user_confirmed = fbPlainState.user_confirmed ∧
    fbOverviewState.awaiting_user_response =
      fbPlainState.awaiting_user_response ∧
    fbOverviewState.critical_optimization_done =
      fbPlainState.critical_optimization_done ∧
    fbOverviewState.route = fbPlainState.route ∧
    fbOverviewState.segments = fbPlainState.segments ∧
    route_planner fbOverviewState = some "optimiser" ∧
    route_planner fbPlainState = some END_SENTINEL :=
  ⟨rfl, rfl, rfl, rfl, rfl, rfl, by decide, by decide⟩

/-- C8 (amended): `route_optimiser` depends only on the last message and
`route_reviewer` only on the `user_confirmed` flag; `route_planner`
additionally inspects the second-to-last message (its type and content) and
the presence of a route and non-emptiness of the segments (its feedback
heuristic), and is invariant once two states also agree on those. -/
theorem claim_C8_predicate_dependencies :
    (∀ s t : AgentState, s.messages.getLast? = t.messages.getLast? →
      route_optimiser s = route_optimiser t) ∧
    (∀ s t : AgentState, s.user_confirmed = t.user_confirmed →
      route_reviewer s = route_reviewer t) ∧
    (∀ s t : AgentState,
      s.user_confirmed = t.user_confirmed →
      s.route.isSome = t.route.isSome →
      segmentsTruthy s = segmentsTruthy t →
      s.messages.getLast? = t.messages.getLast? →
      s.messages.dropLast.getLast? = t.messages.dropLast.getLast? →
      route_planner s = route_planner t) := by
  refine ⟨?_, ?_, ?_⟩
  · intro s t h
    unfold route_optimiser
    rw [h]
  · intro s t h
    unfold route_reviewer
    rw [h]
  · intro s t h1 h2 h3 h4 h5
    unfold route_planner
    rw [h1, h2, h3, h4, h5]

/-- C8 witness: two concretely different logs agreeing on the observed
projections route identically. -/
theorem claim_C8_witness :
    route_planner fbPlainState = route_planner fbPlainStateLong ∧
    route_optimiser fbPlainState = route_optimiser fbPlainStateLong :=
  ⟨claim_C8_predicate_dependencies.2.2 fbPlainState fbPlainStateLong
      rfl rfl rfl rfl rfl,
   claim_C8_predicate_dependencies.1 fbPlainState fbPlainStateLong rfl⟩

end Routai
